import Mathlib

/-!
Verification development for the NOAA batch weather pipeline
(`raw_noaa_batch_s3.py`): fixed-width record decoding, station-directory
enrichment, completeness validation, and phase-shifted temporal windowing.

Python strings are modelled as `List Char`, Python floats as `ℚ` (all the
numeric operations involved — parsing decimal literals, dividing by 10 —
are exact on the inputs considered), Python `None` by an explicit `none`
constructor, exceptions by `Except`.  The CPython builtins used by the
source (`float`, `datetime.strptime` for the fixed format `%Y%m%d %H%M`,
`dict.get`) are modelled from their documented behaviour: `float` on the
numeric literal grammar (optional whitespace, sign, decimal digits with
optional point and exponent; the `inf`/`nan` words and digit underscores
are outside the model), `strptime` via the digit-group regular expression
CPython compiles for this format, including its ordered-alternative
backtracking and its trailing "unconverted data remains" check, followed
by the `datetime` constructor's calendar validation.
-/

/-- Decidable equality for `Except`, so that concrete runs of the
modelled code can be settled by `decide`. -/
instance {ε α : Type} [DecidableEq ε] [DecidableEq α] : DecidableEq (Except ε α)
  | Except.ok a, Except.ok b =>
    match decEq a b with
    | isTrue h => isTrue (by rw [h])
    | isFalse h => isFalse (by intro hh; cases hh; exact h rfl)
  | Except.ok _, Except.error _ => isFalse (by intro h; cases h)
  | Except.error _, Except.ok _ => isFalse (by intro h; cases h)
  | Except.error a, Except.error b =>
    match decEq a b with
    | isTrue h => isTrue (by rw [h])
    | isFalse h => isFalse (by intro hh; cases hh; exact h rfl)

/-- Python exception kinds that the modelled code can raise. -/
inductive PyErr where
  | attributeError
  | typeError
  | valueError
  | ioError
deriving DecidableEq

/-- Python slice `s[a:b]` for `0 ≤ a ≤ b` (out-of-range bounds clip). -/
def pySlice (s : List Char) (a b : ℕ) : List Char :=
  (s.take b).drop a

/-- Numeric value of an ASCII digit character. -/
def dval (c : Char) : ℕ := c.toNat - 48

/-- The characters matched by `\s` in CPython's `re` (ASCII range). -/
def isPyWs (c : Char) : Bool :=
  c == ' ' || c == '\t' || c == '\n' || c == '\r' || c == '\x0b' || c == '\x0c'

/-- Value of a digit string read in base 10. -/
def digitsToNat (l : List Char) : ℕ :=
  l.foldl (fun a c => a * 10 + dval c) 0

/-- The rational `n * 10 ^ e` (built with `mkRat` so that it evaluates). -/
def qOfParts (n : ℤ) (e : ℤ) : ℚ :=
  if 0 ≤ e then mkRat (n * 10 ^ e.toNat) 1 else mkRat n (10 ^ (-e).toNat)

/-- Strip leading and trailing whitespace (CPython `float` does this). -/
def stripPyWs (s : List Char) : List Char :=
  ((s.dropWhile isPyWs).reverse.dropWhile isPyWs).reverse

/-- Parse the exponent suffix of a float literal: the whole remaining
input must be empty or `[eE][+-]?digits`. Returns the exponent. -/
def pExp : List Char → Option ℤ
  | [] => some 0
  | e :: t =>
    if e == 'e' || e == 'E' then
      match t with
      | '+' :: ds =>
        if ds ≠ [] ∧ ds.all Char.isDigit then some ((digitsToNat ds : ℤ)) else Option.none
      | '-' :: ds =>
        if ds ≠ [] ∧ ds.all Char.isDigit then some (-(digitsToNat ds : ℤ)) else Option.none
      | ds =>
        if ds ≠ [] ∧ ds.all Char.isDigit then some ((digitsToNat ds : ℤ)) else Option.none
    else Option.none

/-- Sign-and-magnitude part of the CPython `float` literal grammar:
`digits [. digits] [exp]` or `. digits [exp]`, whose exact value is
`sign · digits · 10 ^ (exp − #fraction-digits)`. -/
def pyFloatMag (sign : ℤ) (s : List Char) : Option ℚ :=
  let ip := s.takeWhile Char.isDigit
  let r1 := s.dropWhile Char.isDigit
  match r1 with
  | '.' :: t =>
    let fp := t.takeWhile Char.isDigit
    let r2 := t.dropWhile Char.isDigit
    if ip = [] ∧ fp = [] then Option.none
    else (pExp r2).map fun e =>
      qOfParts (sign * (digitsToNat (ip ++ fp) : ℤ)) (e - (fp.length : ℤ))
  | _ =>
    if ip = [] then Option.none
    else (pExp r1).map fun e => qOfParts (sign * (digitsToNat ip : ℤ)) e

/-- Model of CPython `float(str)` on the numeric literal grammar:
optional surrounding whitespace, optional sign, decimal digits with
optional point and exponent, valued exactly.  Returns `none` where
`float` raises `ValueError`. -/
def pyFloat (s : List Char) : Option ℚ :=
  match stripPyWs s with
  | '+' :: t => pyFloatMag 1 t
  | '-' :: t => pyFloatMag (-1) t
  | t => pyFloatMag 1 t

/-- A JSON value as produced by `json.loads` for the station file
(only the shapes the pipeline distinguishes). -/
inductive JVal where
  | jnull
  | jbool (b : Bool)
  | jnum (q : ℚ)
  | jstr (s : List Char)
  | jarr
  | jobj
deriving DecidableEq

/-- Python `float(x)` applied to `location.get(key, None)`:
`None`/`null` and container values raise `TypeError`, strings go through
the literal grammar (raising `ValueError` on failure), numbers and
booleans convert. -/
def pyFloatOf (v : Option JVal) : Except PyErr ℚ :=
  match v with
  | Option.none => Except.error PyErr.typeError
  | some JVal.jnull => Except.error PyErr.typeError
  | some (JVal.jbool b) => Except.ok (if b then 1 else 0)
  | some (JVal.jnum q) => Except.ok q
  | some (JVal.jstr s) =>
    match pyFloat s with
    | some q => Except.ok q
    | Option.none => Except.error PyErr.valueError
  | some JVal.jarr => Except.error PyErr.typeError
  | some JVal.jobj => Except.error PyErr.typeError

/-- A `datetime.datetime` as produced by `strptime` with UTC tzinfo
(seconds and microseconds are always zero for the format used). -/
structure PyDateTime where
  year : ℕ
  month : ℕ
  day : ℕ
  hour : ℕ
  minute : ℕ
deriving DecidableEq

/-- Gregorian leap-year test. -/
def isLeap (y : ℕ) : Bool :=
  (y % 4 == 0 && y % 100 != 0) || y % 400 == 0

/-- Number of days in a month (the `datetime` constructor's calendar). -/
def daysInMonth (y m : ℕ) : ℕ :=
  if m = 2 then (if isLeap y then 29 else 28)
  else if m = 4 ∨ m = 6 ∨ m = 9 ∨ m = 11 then 30 else 31

/-- The `datetime.datetime(y, m, d, h, mi)` constructor's validity check. -/
def validDateTime (t : PyDateTime) : Prop :=
  1 ≤ t.year ∧ t.year ≤ 9999 ∧ 1 ≤ t.month ∧ t.month ≤ 12 ∧
  1 ≤ t.day ∧ t.day ≤ daysInMonth t.year t.month ∧
  t.hour ≤ 23 ∧ t.minute ≤ 59

instance (t : PyDateTime) : Decidable (validDateTime t) := by
  unfold validDateTime; infer_instance

/-- Group `%Y`: exactly four digits. -/
def pYear : List Char → Option (ℕ × List Char)
  | a :: b :: c :: e :: r =>
    if a.isDigit && b.isDigit && c.isDigit && e.isDigit then
      some (dval a * 1000 + dval b * 100 + dval c * 10 + dval e, r)
    else Option.none
  | _ => Option.none

/-- A two-alternative digit group of CPython's `_strptime` regexes:
the two-digit branch is preferred, then the one-digit branch; the
candidates are listed in backtracking order. -/
def pTwoOne (okTwo : ℕ → ℕ → Bool) (okOne : ℕ → Bool) :
    List Char → List (ℕ × List Char)
  | [] => []
  | [a] =>
    if a.isDigit && okOne (dval a) then [(dval a, [])] else []
  | a :: b :: r =>
    (if a.isDigit && b.isDigit && okTwo (dval a) (dval b) then
      [(dval a * 10 + dval b, r)] else []) ++
    (if a.isDigit && okOne (dval a) then [(dval a, b :: r)] else [])

/-- Group `%m`: `1[0-2]|0[1-9]|[1-9]`. -/
def pMonth : List Char → List (ℕ × List Char) :=
  pTwoOne (fun d1 d2 => (d1 == 1 && d2 ≤ 2) || (d1 == 0 && 1 ≤ d2)) (fun d => 1 ≤ d)

/-- Group `%d`: `3[0-1]|[1-2]\d|0[1-9]|[1-9]| [1-9]` (the last
alternative is a space followed by a nonzero digit, tried last). -/
def pDay (s : List Char) : List (ℕ × List Char) :=
  pTwoOne (fun d1 d2 => (d1 == 3 && d2 ≤ 1) || d1 == 1 || d1 == 2 || (d1 == 0 && 1 ≤ d2))
    (fun d => 1 ≤ d) s ++
  (match s with
   | a :: b :: r =>
     if a == ' ' && b.isDigit && 1 ≤ dval b then [(dval b, r)] else []
   | _ => [])

/-- Group `%H`: `2[0-3]|[0-1]\d|\d`. -/
def pHour : List Char → List (ℕ × List Char) :=
  pTwoOne (fun d1 d2 => (d1 == 2 && d2 ≤ 3) || d1 ≤ 1) (fun _ => true)

/-- Group `%M`: `[0-5]\d|\d`. -/
def pMin : List Char → List (ℕ × List Char) :=
  pTwoOne (fun d1 d2 => d1 ≤ 5 && d2 ≤ 9) (fun _ => true)

/-- Pattern `\s+` (a whitespace run in the format string): greedy, so the
candidate remainders drop the longest whitespace run first, down to
dropping a single character. -/
def pWsCands (s : List Char) : List (List Char) :=
  let n := (s.takeWhile isPyWs).length
  (List.range n).map (fun i => s.drop (n - i))

/-- All matches of the compiled `%Y%m%d\s+%H%M` regex against a prefix of
`s`, in backtracking preference order, each with the unconsumed rest. -/
def strptimeMatches (s : List Char) : List ((ℕ × ℕ × ℕ × ℕ × ℕ) × List Char) :=
  match pYear s with
  | Option.none => []
  | some (y, r1) =>
    (pMonth r1).flatMap fun mr =>
    (pDay mr.2).flatMap fun dr =>
    (pWsCands dr.2).flatMap fun r4 =>
    (pHour r4).flatMap fun hr =>
    (pMin hr.2).map fun nr => ((y, mr.1, dr.1, hr.1, nr.1), nr.2)

/-- Model of `datetime.datetime.strptime(s, "%Y%m%d %H%M")`: take the
regex match the backtracking engine finds first, fail if it did not
consume the whole string ("unconverted data remains"), then run the
`datetime` constructor's validity check. -/
def strptime_ymd_hm (s : List Char) : Except PyErr PyDateTime :=
  match strptimeMatches s with
  | [] => Except.error PyErr.valueError
  | ((y, m, d, h, mi), rest) :: _ =>
    if rest = [] then
      if validDateTime ⟨y, m, d, h, mi⟩ then Except.ok ⟨y, m, d, h, mi⟩
      else Except.error PyErr.valueError
    else Except.error PyErr.valueError

/-! ## The source functions of `raw_noaa_batch_s3.py` -/

/-- Function `parse_USAF(data)`: `data[4:10]`. -/
def parse_USAF (data : List Char) : List Char := pySlice data 4 10

/-- Function `parse_WBAN(data)`: `data[10:15]`. -/
def parse_WBAN (data : List Char) : List Char := pySlice data 10 15

/-- The string `data[15:23] + ' ' + data[23:27]` that `parse_time` hands
to `strptime`. -/
def rawDateTimeSlice (data : List Char) : List Char :=
  pySlice data 15 23 ++ ' ' :: pySlice data 23 27

/-- Function `parse_time(data)`: `strptime` on the date/time slices under a bare
`try/except` returning `None` on any exception.  (The source then
attaches UTC tzinfo, which changes no field.) -/
def parse_time (data : List Char) : Option PyDateTime :=
  match strptime_ymd_hm (rawDateTimeSlice data) with
  | Except.ok t => some t
  | Except.error _ => Option.none

/-- Function `parse_temp(data)`: `float(data[87:92]) / 10.0` under a bare
`try/except` returning `None` on any exception. -/
def parse_temp (data : List Char) : Option ℚ :=
  match pyFloat (pySlice data 87 92) with
  | some v => some (v / 10)
  | Option.none => Option.none

/-- A station-directory entry: the JSON object a station key maps to
(association list of fields, as `json.loads` produces). -/
abbrev LocObj := List (List Char × JVal)

/-- The station directory: the dict `json.loads` returns, mapping
`"USAF|WBAN"` keys to location objects. -/
abbrev StationDir := List (List Char × LocObj)

/-- First-match association-list lookup (Python dicts have unique keys,
so this is `d[k]`-as-`Option`). -/
def alookup {α : Type} : List (List Char × α) → List Char → Option α
  | [], _ => Option.none
  | (k2, v) :: t, k => if k2 = k then some v else alookup t k

/-- Function `get_station_location(data)`:
`STATION_LOCATIONS.get(parse_USAF(data) + "|" + parse_WBAN(data), None)`.
The broadcast global `STATION_LOCATIONS` is passed explicitly. -/
def get_station_location (dir : StationDir) (data : List Char) : Option LocObj :=
  alookup dir (parse_USAF data ++ '|' :: parse_WBAN data)

/-- A value stored in a record dict produced by the pipeline. -/
inductive PyVal where
  | none
  | num (q : ℚ)
  | time (t : PyDateTime)
deriving DecidableEq

/-- A Python dict with string keys, as the record dicts are. -/
abbrev PyDict := List (List Char × PyVal)

/-- Python `d.get(k, None)`. -/
def pyGet (d : PyDict) (k : List Char) : PyVal :=
  match alookup d k with
  | some v => v
  | Option.none => PyVal.none

def kMeasurementTime : List Char := "measurement_time".data
def kLat : List Char := "lat".data
def kLon : List Char := "lon".data
def kTemp : List Char := "temp".data

/-- Wrap an optional datetime as the stored dict value. -/
def optTime : Option PyDateTime → PyVal
  | some t => PyVal.time t
  | Option.none => PyVal.none

/-- Wrap an optional float as the stored dict value. -/
def optNum : Option ℚ → PyVal
  | some q => PyVal.num q
  | Option.none => PyVal.none

/-- Function `map_station_id_to_location(data)`: looks up the station, then
evaluates `float(location.get("lat", None))`, `float(location.get("lon",
None))`, `parse_time(data)`, `parse_temp(data)` in that order and builds
the record dict.  When the lookup returned `None`, the attribute access
`location.get` raises `AttributeError`; when a coordinate is missing or
`null`, `float(None)` raises `TypeError`; these exceptions are not
caught anywhere in the source. -/
def map_station_id_to_location (dir : StationDir) (data : List Char) :
    Except PyErr PyDict :=
  match get_station_location dir data with
  | Option.none => Except.error PyErr.attributeError
  | some location =>
    match pyFloatOf (alookup location kLat) with
    | Except.error e => Except.error e
    | Except.ok lat =>
      match pyFloatOf (alookup location kLon) with
      | Except.error e => Except.error e
      | Except.ok lon =>
        Except.ok [(kMeasurementTime, optTime (parse_time data)),
                   (kLat, PyVal.num lat),
                   (kLon, PyVal.num lon),
                   (kTemp, optNum (parse_temp data))]

/-- Function `filter_required(data)`: `False` if any of the four required keys
reads as `None` via `data.get(key, None)`, `True` otherwise. -/
def filter_required (data : PyDict) : Bool :=
  if pyGet data kLat = PyVal.none ∨ pyGet data kLon = PyVal.none
      ∨ pyGet data kMeasurementTime = PyVal.none ∨ pyGet data kTemp = PyVal.none
  then false
  else true

/-- One line through `.map(map_station_id_to_location).filter(filter_required)`:
`ok (some r)` = record survives, `ok none` = record dropped by the
filter, `error` = an uncaught exception. -/
def processLine (dir : StationDir) (line : List Char) :
    Except PyErr (Option PyDict) :=
  match map_station_id_to_location dir line with
  | Except.error e => Except.error e
  | Except.ok r => Except.ok (if filter_required r then some r else Option.none)

/-- The whole map-then-filter stage over the input lines, with the
fail-fast semantics of an uncaught exception. -/
def processAll (dir : StationDir) : List (List Char) → Except PyErr (List PyDict)
  | [] => Except.ok []
  | l :: t =>
    match map_station_id_to_location dir l with
    | Except.error e => Except.error e
    | Except.ok r =>
      match processAll dir t with
      | Except.error e => Except.error e
      | Except.ok rs => Except.ok (if filter_required r then r :: rs else rs)

/-- Function `get_station_locations_from_file(filename)`: `open`, `readline`,
`json.loads`.  The file system is modelled by an `Option` of the file's
lines (`none` = absent/unreadable, raising `IOError`); the stdlib
`json.loads` together with the station schema is the abstract parameter
`jsonLoads` (`none` = parse failure, raising `ValueError`).  `readline`
on an empty file yields the empty string. -/
def get_station_locations_from_file
    (jsonLoads : List Char → Option StationDir)
    (source : Option (List (List Char))) : Except PyErr StationDir :=
  match source with
  | Option.none => Except.error PyErr.ioError
  | some ls =>
    match jsonLoads (ls.headD []) with
    | Option.none => Except.error PyErr.valueError
    | some d => Except.ok d

/-- The `__main__` order of operations: the station directory is loaded
first; only if that succeeds are the input lines processed. -/
def runBatch (jsonLoads : List Char → Option StationDir)
    (source : Option (List (List Char))) (lines : List (List Char)) :
    Except PyErr (List PyDict) :=
  match get_station_locations_from_file jsonLoads source with
  | Except.error e => Except.error e
  | Except.ok dir => processAll dir lines

/-- Modelled from the spec: the window-assignment semantics of
`pyspark.sql.functions.window(timeColumn, windowDuration, startTime)`
(an external library call, the only windowing code the source has).
Boundaries sit at `offset + k·duration`; the window start for `t` is the
greatest boundary that is `≤ t` (integer timestamps, `⌊·⌋`-division). -/
def windowStart (dur off t : ℤ) : ℤ :=
  off + dur * ((t - off) / dur)

/-- Modelled from the spec: the half-open window `[start, start + dur)`
a timestamp is assigned to. -/
def assignWindow (dur off t : ℤ) : ℤ × ℤ :=
  (windowStart dur off t, windowStart dur off t + dur)

/-! ## Example data -/

/-- A well-formed 92-character input line: USAF `725300`, WBAN `94846`,
date `20160101`, time `1200`, temperature field `+0150`. -/
def exLine : List Char :=
  "0000".data ++ "725300".data ++ "94846".data ++ "20160101".data ++ "1200".data
    ++ List.replicate 60 '0' ++ "+0150".data

/-- A location object with numeric `lat`/`lon`. -/
def exLoc : LocObj := [(kLat, JVal.jnum 41), (kLon, JVal.jnum (-74))]

/-- A station directory resolving `725300|94846` to `exLoc`. -/
def exDir : StationDir := [("725300|94846".data, exLoc)]

/-- A 90-character line: same prefix as `exLine` but its temperature
slice `[87:92]` is the three characters `150`. -/
def line90 : List Char :=
  "0000".data ++ "725300".data ++ "94846".data ++ "20160101".data ++ "1200".data
    ++ List.replicate 60 '0' ++ "150".data

/-- A 27-character line: well-formed key, date and time, but nothing at
the temperature offsets. -/
def shortLine : List Char :=
  "0000".data ++ "725300".data ++ "94846".data ++ "20160101".data ++ "1200".data

/-- A 92-character line whose date slice is the invalid calendar date
February 30. -/
def badDateLine : List Char :=
  "0000".data ++ "725300".data ++ "94846".data ++ "20160230".data ++ "1200".data
    ++ List.replicate 60 '0' ++ "+0150".data

/-- A directory resolving `725300|94846` to an empty location object
(no `lat`, no `lon`). -/
def exDirNoLat : StationDir := [("725300|94846".data, [])]

/-- Length-88 line: temperature slice is the single character `5`. -/
def line88 : List Char := List.replicate 87 '0' ++ "5".data

/-- Length-92 line whose temperature slice is `15e01` (exponent form). -/
def lineExp : List Char := List.replicate 87 '0' ++ "15e01".data

/-- Length-92 line whose temperature slice is ` 1.5 ` (whitespace and
decimal point). -/
def lineWs : List Char := List.replicate 87 '0' ++ " 1.5 ".data

/-- Length-92 line whose temperature slice `+-123` is not a float
literal. -/
def lineBad : List Char := List.replicate 87 '0' ++ "+-123".data

/-- Length-87 line: its temperature slice is empty. -/
def line87 : List Char := List.replicate 87 '0'

/-! ## Helper lemmas -/

/-- Evaluation of `pyGet` at `measurement_time` on a four-field record
literal. -/
theorem pyGet4_time (w x y z : PyVal) :
    pyGet [(kMeasurementTime, w), (kLat, x), (kLon, y), (kTemp, z)] kMeasurementTime = w := by
  simp +decide [pyGet, alookup]

/-- Evaluation of `pyGet` at `lat` on a four-field record literal. -/
theorem pyGet4_lat (w x y z : PyVal) :
    pyGet [(kMeasurementTime, w), (kLat, x), (kLon, y), (kTemp, z)] kLat = x := by
  simp +decide [pyGet, alookup]

/-- Evaluation of `pyGet` at `lon` on a four-field record literal. -/
theorem pyGet4_lon (w x y z : PyVal) :
    pyGet [(kMeasurementTime, w), (kLat, x), (kLon, y), (kTemp, z)] kLon = y := by
  simp +decide [pyGet, alookup]

/-- Evaluation of `pyGet` at `temp` on a four-field record literal. -/
theorem pyGet4_temp (w x y z : PyVal) :
    pyGet [(kMeasurementTime, w), (kLat, x), (kLon, y), (kTemp, z)] kTemp = z := by
  simp +decide [pyGet, alookup]

/-- The validator accepts a record whose four fields are all non-`None`
constructors. -/
theorem filter_lit_true (t : PyDateTime) (la lo q : ℚ) :
    filter_required [(kMeasurementTime, PyVal.time t), (kLat, PyVal.num la),
                     (kLon, PyVal.num lo), (kTemp, PyVal.num q)] = true := by
  unfold filter_required
  rw [pyGet4_time, pyGet4_lat, pyGet4_lon, pyGet4_temp]
  simp

/-- The validator rejects a record whose time or temperature field is
`None`. -/
theorem filter_lit_false (x z : PyVal) (la lo : ℚ)
    (h : x = PyVal.none ∨ z = PyVal.none) :
    filter_required [(kMeasurementTime, x), (kLat, PyVal.num la),
                     (kLon, PyVal.num lo), (kTemp, z)] = false := by
  unfold filter_required
  rw [pyGet4_time, pyGet4_lat, pyGet4_lon, pyGet4_temp]
  rcases h with h | h <;> simp [h]

/-- Enrichment on a resolvable station with numeric coordinates builds
the four-field record, with the time and temperature fields as the
decoders returned them. -/
theorem map_station_fields {dir : StationDir} {line : List Char} {loc : LocObj}
    {la lo : ℚ}
    (hloc : get_station_location dir line = some loc)
    (hla : alookup loc kLat = some (JVal.jnum la))
    (hlo : alookup loc kLon = some (JVal.jnum lo)) :
    map_station_id_to_location dir line
      = Except.ok [(kMeasurementTime, optTime (parse_time line)),
                   (kLat, PyVal.num la), (kLon, PyVal.num lo),
                   (kTemp, optNum (parse_temp line))] := by
  unfold map_station_id_to_location
  rw [hloc]
  dsimp only
  rw [hla, hlo]
  rfl

/-- Happy path through decode and enrich: when additionally the date/time
and the temperature parse, the record has all four fields populated. -/
theorem map_station_ok {dir : StationDir} {line : List Char} {loc : LocObj}
    {la lo : ℚ} {t : PyDateTime} {v : ℚ}
    (hloc : get_station_location dir line = some loc)
    (hla : alookup loc kLat = some (JVal.jnum la))
    (hlo : alookup loc kLon = some (JVal.jnum lo))
    (ht : strptime_ymd_hm (rawDateTimeSlice line) = Except.ok t)
    (hv : pyFloat (pySlice line 87 92) = some v) :
    map_station_id_to_location dir line
      = Except.ok [(kMeasurementTime, PyVal.time t), (kLat, PyVal.num la),
                   (kLon, PyVal.num lo), (kTemp, PyVal.num (v / 10))] := by
  rw [map_station_fields hloc hla hlo]
  simp [parse_time, ht, parse_temp, hv, optTime, optNum]

/-- Happy path through the whole per-line stage: the populated record
passes the validator. -/
theorem processLine_ok {dir : StationDir} {line : List Char} {loc : LocObj}
    {la lo : ℚ} {t : PyDateTime} {v : ℚ}
    (hloc : get_station_location dir line = some loc)
    (hla : alookup loc kLat = some (JVal.jnum la))
    (hlo : alookup loc kLon = some (JVal.jnum lo))
    (ht : strptime_ymd_hm (rawDateTimeSlice line) = Except.ok t)
    (hv : pyFloat (pySlice line 87 92) = some v) :
    processLine dir line
      = Except.ok (some [(kMeasurementTime, PyVal.time t), (kLat, PyVal.num la),
                         (kLon, PyVal.num lo), (kTemp, PyVal.num (v / 10))]) := by
  unfold processLine
  rw [map_station_ok hloc hla hlo ht hv]
  dsimp only
  rw [filter_lit_true]
  rfl

/-- The completeness predicate returns `false` exactly when one of the
four required fields reads as `None`. -/
theorem filter_required_eq_false_iff (d : PyDict) :
    filter_required d = false
      ↔ (pyGet d kLat = PyVal.none ∨ pyGet d kLon = PyVal.none
          ∨ pyGet d kMeasurementTime = PyVal.none ∨ pyGet d kTemp = PyVal.none) := by
  unfold filter_required
  by_cases h : pyGet d kLat = PyVal.none ∨ pyGet d kLon = PyVal.none
      ∨ pyGet d kMeasurementTime = PyVal.none ∨ pyGet d kTemp = PyVal.none <;>
    simp [h]

/-- The temperature slice of a line shorter than 88 characters is empty. -/
theorem pySlice_temp_nil {s : List Char} (h : s.length ≤ 87) :
    pySlice s 87 92 = [] := by
  unfold pySlice
  apply List.drop_eq_nil_of_le
  rw [List.length_take]
  exact le_trans (min_le_right 92 s.length) h

/-- Python `float` of the empty string fails. -/
theorem pyFloat_nil : pyFloat [] = Option.none := rfl

/-- Rewriting `parse_temp` as a map over the float parse of the slice. -/
theorem parse_temp_map (s : List Char) :
    parse_temp s = (pyFloat (pySlice s 87 92)).map (fun v => v / 10) := by
  unfold parse_temp
  cases pyFloat (pySlice s 87 92) <;> rfl

/-- A line shorter than 88 characters has no parseable temperature. -/
theorem parse_temp_short {s : List Char} (h : s.length ≤ 87) :
    parse_temp s = Option.none := by
  rw [parse_temp_map, pySlice_temp_nil h, pyFloat_nil]
  rfl

/-- Success of the modelled `strptime` implies the constructor's calendar
validity of the result. -/
theorem strptime_ok_valid {s : List Char} {t : PyDateTime}
    (h : strptime_ymd_hm s = Except.ok t) : validDateTime t := by
  revert h
  unfold strptime_ymd_hm
  cases strptimeMatches s with
  | nil => intro h; cases h
  | cons hd tl =>
    obtain ⟨⟨y, m, d, hh, mi⟩, rest⟩ := hd
    dsimp
    split
    · split
      · intro h
        cases h
        assumption
      · intro h; cases h
    · intro h; cases h

/-- Window start lower/upper bound: the assigned start is at most `t`
and `t` is inside the window. -/
theorem windowStart_le {dur off t : ℤ} (hd : 0 < dur) :
    windowStart dur off t ≤ t ∧ t < windowStart dur off t + dur := by
  unfold windowStart
  have h1 := Int.ediv_add_emod (t - off) dur
  have h2 : 0 ≤ (t - off) % dur := Int.emod_nonneg _ (ne_of_gt hd)
  have h3 : (t - off) % dur < dur := Int.emod_lt_of_pos _ hd
  constructor <;> linarith

/-- The assigned window start is a boundary `off + k·dur`. -/
theorem windowStart_boundary (dur off t : ℤ) :
    ∃ k, windowStart dur off t = off + k * dur :=
  ⟨(t - off) / dur, by unfold windowStart; ring⟩

/-- Any boundary whose window contains `t` is the assigned start. -/
theorem windowStart_unique {dur off t : ℤ} (hd : 0 < dur) (s k : ℤ)
    (hk : s = off + k * dur) (h1 : s ≤ t) (h2 : t < s + dur) :
    s = windowStart dur off t := by
  have hq := Int.ediv_add_emod (t - off) dur
  have hr0 : 0 ≤ (t - off) % dur := Int.emod_nonneg _ (ne_of_gt hd)
  have hrd : (t - off) % dur < dur := Int.emod_lt_of_pos _ hd
  have hc : dur * ((t - off) / dur) = ((t - off) / dur) * dur := mul_comm _ _
  have hlow : k * dur ≤ ((t - off) / dur) * dur + (t - off) % dur := by linarith
  have hhigh : ((t - off) / dur) * dur + (t - off) % dur < k * dur + dur := by linarith
  have hk1 : k * dur < ((t - off) / dur + 1) * dur := by
    have he : ((t - off) / dur + 1) * dur = ((t - off) / dur) * dur + dur := by ring
    rw [he]; linarith
  have hk1' : k < (t - off) / dur + 1 := (mul_lt_mul_right hd).mp hk1
  have hk2 : ((t - off) / dur) * dur < (k + 1) * dur := by
    have he : (k + 1) * dur = k * dur + dur := by ring
    rw [he]; linarith
  have hk2' : (t - off) / dur < k + 1 := (mul_lt_mul_right hd).mp hk2
  have hke : k = (t - off) / dur := by omega
  rw [hk, hke]
  unfold windowStart
  ring

/-- Shifting a timestamp by one duration shifts the window start by one
duration. -/
theorem windowStart_shift {dur off t : ℤ} (hd : 0 < dur) :
    windowStart dur off (t + dur) = windowStart dur off t + dur := by
  unfold windowStart
  have h : t + dur - off = (t - off) + 1 * dur := by ring
  rw [h, Int.add_mul_ediv_right _ _ (ne_of_gt hd)]
  ring

/-- Concrete end-to-end run of `exLine` against `exDir`. -/
theorem exLine_processed :
    processLine exDir exLine
      = Except.ok (some [(kMeasurementTime, PyVal.time ⟨2016, 1, 1, 12, 0⟩),
                         (kLat, PyVal.num 41), (kLon, PyVal.num (-74)),
                         (kTemp, PyVal.num 15)]) := by
  have h := @processLine_ok exDir exLine exLoc 41 (-74) ⟨2016, 1, 1, 12, 0⟩ 150
    rfl rfl rfl (by decide) (by decide)
  rw [show ((150 : ℚ) / 10) = 15 by norm_num] at h
  exact h

/-- Concrete end-to-end run of the 90-character `line90` against `exDir`. -/
theorem line90_processed :
    processLine exDir line90
      = Except.ok (some [(kMeasurementTime, PyVal.time ⟨2016, 1, 1, 12, 0⟩),
                         (kLat, PyVal.num 41), (kLon, PyVal.num (-74)),
                         (kTemp, PyVal.num 15)]) := by
  have h := @processLine_ok exDir line90 exLoc 41 (-74) ⟨2016, 1, 1, 12, 0⟩ 150
    rfl rfl rfl (by decide) (by decide)
  rw [show ((150 : ℚ) / 10) = 15 by norm_num] at h
  exact h

/-! ## Claims -/

/-- Claim C1: for every input line of at least 92 characters whose
station key (characters 4–10 and 10–15 joined by `|`) resolves in the
station directory to a location with numeric lat/lon, and whose
date/time and temperature substrings parse, decode–enrich–validate
yields a valid record whose fields equal the positional substrings
numerically normalized; in particular the line with USAF `725300`, WBAN
`94846`, date `20160101`, time `1200`, temperature field `+0150` yields
temperature `15.0` and timestamp 2016-01-01T12:00:00 UTC. -/
theorem claim1_pipeline_valid_record :
    (∀ (dir : StationDir) (line : List Char) (loc : LocObj) (la lo : ℚ)
        (t : PyDateTime) (v : ℚ),
      92 ≤ line.length →
      get_station_location dir line = some loc →
      alookup loc kLat = some (JVal.jnum la) →
      alookup loc kLon = some (JVal.jnum lo) →
      strptime_ymd_hm (rawDateTimeSlice line) = Except.ok t →
      pyFloat (pySlice line 87 92) = some v →
      processLine dir line
        = Except.ok (some [(kMeasurementTime, PyVal.time t), (kLat, PyVal.num la),
                           (kLon, PyVal.num lo), (kTemp, PyVal.num (v / 10))]))
  ∧ processLine exDir exLine
      = Except.ok (some [(kMeasurementTime, PyVal.time ⟨2016, 1, 1, 12, 0⟩),
                         (kLat, PyVal.num 41), (kLon, PyVal.num (-74)),
                         (kTemp, PyVal.num 15)]) := by
  constructor
  · intro dir line loc la lo t v _ hloc hla hlo ht hv
    exact processLine_ok hloc hla hlo ht hv
  · exact exLine_processed

/-- Witness for C1: the general statement applied to the concrete
92-character example line and directory. -/
theorem claim1_witness :
    processLine exDir exLine
      = Except.ok (some [(kMeasurementTime, PyVal.time ⟨2016, 1, 1, 12, 0⟩),
                         (kLat, PyVal.num 41), (kLon, PyVal.num (-74)),
                         (kTemp, PyVal.num ((150 : ℚ) / 10))]) :=
  claim1_pipeline_valid_record.1 exDir exLine exLoc 41 (-74) ⟨2016, 1, 1, 12, 0⟩ 150
    (by decide) rfl rfl rfl (by decide) (by decide)

/-- Claim C2 (the code contradicts it): the claim says a record whose
station key is missing from the directory is dropped without raising;
in the source, `get_station_location` returns `None` and
`map_station_id_to_location` immediately calls `location.get("lat",
None)` on it, raising `AttributeError` — so enrichment raises instead
of dropping.  This theorem evaluates the code at that situation. -/
theorem claim2_missing_station_raises :
    (∀ (dir : StationDir) (line : List Char),
      get_station_location dir line = Option.none →
      map_station_id_to_location dir line = Except.error PyErr.attributeError)
  ∧ map_station_id_to_location [] exLine = Except.error PyErr.attributeError := by
  constructor
  · intro dir line h
    unfold map_station_id_to_location
    rw [h]
  · rfl

/-- Witness for C2: the well-formed example line against an empty
directory makes enrichment raise `AttributeError`. -/
theorem claim2_witness :
    map_station_id_to_location [] exLine = Except.error PyErr.attributeError :=
  claim2_missing_station_raises.1 [] exLine rfl

/-- Counterexample to Claim C3 as stated: a 90-character line (shorter
than 92) whose temperature slice `[87:92]` is the three characters
`150` decodes to temperature `15.0`, and with a resolvable station key
the record passes the validator instead of being rejected. -/
theorem claim3_counterexample :
    line90.length < 92
  ∧ parse_temp line90 = some 15
  ∧ processLine exDir line90
      = Except.ok (some [(kMeasurementTime, PyVal.time ⟨2016, 1, 1, 12, 0⟩),
                         (kLat, PyVal.num 41), (kLon, PyVal.num (-74)),
                         (kTemp, PyVal.num 15)]) := by
  refine ⟨by decide, ?_, line90_processed⟩
  have h : pyFloat (pySlice line90 87 92) = some 150 := by decide
  rw [parse_temp_map, h]
  show some ((150 : ℚ) / 10) = some 15
  norm_num

/-- Claim C3 as amended: for a line whose station key resolves to a
location with numeric lat/lon, a line shorter than 88 characters has an
absent temperature, and whenever the temperature or the timestamp field
is absent (in particular for non-numeric substrings) the record is
dropped by the validator and no stage raises (the stage returns a
dropped record, not an error). -/
theorem claim3_short_or_unparsable_dropped :
    ∀ (dir : StationDir) (line : List Char) (loc : LocObj) (la lo : ℚ),
      get_station_location dir line = some loc →
      alookup loc kLat = some (JVal.jnum la) →
      alookup loc kLon = some (JVal.jnum lo) →
        ((line.length ≤ 87 → parse_temp line = Option.none)
      ∧ ((parse_temp line = Option.none ∨ parse_time line = Option.none) →
          processLine dir line = Except.ok Option.none)) := by
  intro dir line loc la lo hloc hla hlo
  constructor
  · exact fun h => parse_temp_short h
  · intro habs
    unfold processLine
    rw [map_station_fields hloc hla hlo]
    dsimp only
    have hfalse : filter_required
        [(kMeasurementTime, optTime (parse_time line)), (kLat, PyVal.num la),
         (kLon, PyVal.num lo), (kTemp, optNum (parse_temp line))] = false := by
      apply filter_lit_false
      rcases habs with h | h
      · right; rw [h]; rfl
      · left; rw [h]; rfl
    rw [hfalse]
    rfl

/-- Witness for the amended C3: the 27-character line with a resolvable
key is dropped by the validator without any stage raising. -/
theorem claim3_witness : processLine exDir shortLine = Except.ok Option.none := by
  have h := claim3_short_or_unparsable_dropped exDir shortLine exLoc 41 (-74) rfl rfl rfl
  exact h.2 (Or.inl (h.1 (by decide)))

/-- Claim C4: window assignment with duration `d > 0` and offset `o` is
total and idempotent; every timestamp lies in its assigned half-open
window, the assigned start is a boundary `o + k·d`, it is the unique
boundary whose window contains the timestamp (so windows tile time
without gaps or overlaps), `assignWindow` is deterministic, the windows
for `t` and `t + d` differ by exactly `d`; with the defaults (60-minute
duration, 30-minute offset, timestamps in minutes) 10:15 = 615 falls in
[09:30, 10:30) = [570, 630) and 10:45 = 645 falls in [10:30, 11:30) =
[630, 690). -/
theorem claim4_window_assignment :
    (∀ dur off t : ℤ, 0 < dur →
        (windowStart dur off t ≤ t ∧ t < windowStart dur off t + dur)
      ∧ (∃ k, windowStart dur off t = off + k * dur)
      ∧ (∀ s k, s = off + k * dur → s ≤ t → t < s + dur → s = windowStart dur off t)
      ∧ assignWindow dur off t = assignWindow dur off t
      ∧ assignWindow dur off (t + dur)
          = (windowStart dur off t + dur, windowStart dur off t + dur + dur))
  ∧ assignWindow 60 30 615 = (570, 630)
  ∧ assignWindow 60 30 645 = (630, 690) := by
  refine ⟨?_, by decide, by decide⟩
  intro dur off t hd
  refine ⟨windowStart_le hd, windowStart_boundary dur off t, ?_, rfl, ?_⟩
  · intro s k hk h1 h2
    exact windowStart_unique hd s k hk h1 h2
  · unfold assignWindow
    rw [windowStart_shift hd]

/-- Witness for C4: the bounds at the default duration and offset for
timestamp 10:15. -/
theorem claim4_witness :
    windowStart 60 30 615 ≤ 615 ∧ 615 < windowStart 60 30 615 + 60 :=
  (claim4_window_assignment.1 60 30 615 (by decide)).1

/-- Claim C5: decoding a single line never raises — for every input
string the timestamp sub-parse (characters 15–23 as `YYYYMMDD` plus
23–27 as `HHMM`) and the temperature sub-parse return the parsed value
on success and an absent value on any parse failure, and any timestamp
actually returned passed the constructor's calendar/clock validation. -/
theorem claim5_decode_total :
    ∀ s : List Char,
      (∀ t, strptime_ymd_hm (rawDateTimeSlice s) = Except.ok t → parse_time s = some t)
    ∧ (∀ e, strptime_ymd_hm (rawDateTimeSlice s) = Except.error e →
        parse_time s = Option.none)
    ∧ (∀ t, parse_time s = some t → validDateTime t)
    ∧ (∀ v, pyFloat (pySlice s 87 92) = some v → parse_temp s = some (v / 10))
    ∧ (pyFloat (pySlice s 87 92) = Option.none → parse_temp s = Option.none) := by
  intro s
  refine ⟨?_, ?_, ?_, ?_, ?_⟩
  · intro t ht; simp [parse_time, ht]
  · intro e he; simp [parse_time, he]
  · intro t ht
    unfold parse_time at ht
    cases hs : strptime_ymd_hm (rawDateTimeSlice s) with
    | ok u =>
      rw [hs] at ht
      cases ht
      exact strptime_ok_valid hs
    | error e => rw [hs] at ht; cases ht
  · intro v hv; simp [parse_temp, hv]
  · intro hv; simp [parse_temp, hv]

/-- Witness for C5: the invalid calendar date February 30 degrades to an
absent timestamp, and the example temperature field parses to `15.0`. -/
theorem claim5_witness :
    parse_time badDateLine = Option.none ∧ parse_temp exLine = some ((150 : ℚ) / 10) :=
  ⟨(claim5_decode_total badDateLine).2.1 PyErr.valueError (by decide),
   (claim5_decode_total exLine).2.2.2.1 150 (by decide)⟩

/-- Claim C6: the completeness predicate returns `false` iff at least
one of latitude, longitude, timestamp or temperature reads as absent,
and `true` otherwise; it is a pure predicate of the record (the
embedding is functional, so the inspected record is unchanged). -/
theorem claim6_filter_complete_iff :
    ∀ d : PyDict,
      (filter_required d = false
        ↔ (pyGet d kLat = PyVal.none ∨ pyGet d kLon = PyVal.none
            ∨ pyGet d kMeasurementTime = PyVal.none ∨ pyGet d kTemp = PyVal.none))
    ∧ (filter_required d = true
        ↔ ¬(pyGet d kLat = PyVal.none ∨ pyGet d kLon = PyVal.none
            ∨ pyGet d kMeasurementTime = PyVal.none ∨ pyGet d kTemp = PyVal.none)) := by
  intro d
  have h := filter_required_eq_false_iff d
  refine ⟨h, ?_, ?_⟩
  · intro htrue hP
    rw [h.mpr hP] at htrue
    cases htrue
  · intro hnP
    cases hb : filter_required d with
    | false => exact absurd (h.mp hb) hnP
    | true => rfl

/-- Witness for C6: the empty record reads all fields as absent and is
rejected. -/
theorem claim6_witness : filter_required [] = false :=
  (claim6_filter_complete_iff []).1.mpr (Or.inl rfl)

/-- Claim C7 (the code contradicts it): the claim says a present
location object lacking `lat` or `lon` propagates the missing
coordinate as an absent field for the validator; in the source the
missing coordinate makes `float(None)` raise `TypeError`, aborting
enrichment.  This theorem evaluates the code at that situation. -/
theorem claim7_missing_coordinate_raises :
    (∀ (dir : StationDir) (line : List Char) (loc : LocObj),
      get_station_location dir line = some loc →
      alookup loc kLat = Option.none →
      map_station_id_to_location dir line = Except.error PyErr.typeError)
  ∧ (∀ (dir : StationDir) (line : List Char) (loc : LocObj) (la : ℚ),
      get_station_location dir line = some loc →
      alookup loc kLat = some (JVal.jnum la) →
      alookup loc kLon = Option.none →
      map_station_id_to_location dir line = Except.error PyErr.typeError)
  ∧ map_station_id_to_location exDirNoLat exLine = Except.error PyErr.typeError := by
  refine ⟨?_, ?_, rfl⟩
  · intro dir line loc hloc hla
    unfold map_station_id_to_location
    rw [hloc]
    dsimp only
    rw [hla]
    rfl
  · intro dir line loc la hloc hla hlo
    unfold map_station_id_to_location
    rw [hloc]
    dsimp only
    rw [hla, hlo]
    rfl

/-- Witness for C7: the example line resolving to an empty location
object makes enrichment raise `TypeError`. -/
theorem claim7_witness :
    map_station_id_to_location exDirNoLat exLine = Except.error PyErr.typeError :=
  claim7_missing_coordinate_raises.1 exDirNoLat exLine [] rfl rfl

/-- Claim C8: loading the station directory fails exactly when the
source is absent/unreadable or its first line does not parse as the
expected structured data; on success it returns the parsed mapping; and
a load failure aborts the batch before any record is processed (the run
is a single error, with no partial results). -/
theorem claim8_loader :
    ∀ (jl : List Char → Option StationDir) (source : Option (List (List Char)))
      (lines : List (List Char)),
      ((∃ e, get_station_locations_from_file jl source = Except.error e)
        ↔ (source = Option.none
            ∨ ∃ ls, source = some ls ∧ jl (ls.headD []) = Option.none))
    ∧ (∀ d, get_station_locations_from_file jl source = Except.ok d
        ↔ ∃ ls, source = some ls ∧ jl (ls.headD []) = some d)
    ∧ (∀ e, get_station_locations_from_file jl source = Except.error e →
        runBatch jl source lines = Except.error e) := by
  intro jl source lines
  cases source with
  | none =>
    refine ⟨⟨fun _ => Or.inl rfl, fun _ => ⟨PyErr.ioError, rfl⟩⟩, ?_, ?_⟩
    · intro d
      constructor
      · intro hok; exact Except.noConfusion hok
      · rintro ⟨ls, hls, _⟩; cases hls
    · intro e he
      unfold runBatch
      rw [he]
  | some ls =>
    cases h : jl (ls.headD []) with
    | none =>
      have hval : get_station_locations_from_file jl (some ls)
          = Except.error PyErr.valueError := by
        unfold get_station_locations_from_file
        dsimp only
        rw [h]
      refine ⟨⟨fun _ => Or.inr ⟨ls, rfl, h⟩, fun _ => ⟨PyErr.valueError, hval⟩⟩, ?_, ?_⟩
      · intro d
        constructor
        · intro hok
          rw [hval] at hok
          cases hok
        · rintro ⟨ls2, hls2, hd⟩
          cases hls2
          rw [h] at hd
          cases hd
      · intro e he
        unfold runBatch
        rw [he]
    | some d0 =>
      have hval : get_station_locations_from_file jl (some ls) = Except.ok d0 := by
        unfold get_station_locations_from_file
        dsimp only
        rw [h]
      refine ⟨⟨?_, ?_⟩, ?_, ?_⟩
      · rintro ⟨e, he⟩
        rw [hval] at he
        cases he
      · rintro (hn | ⟨ls2, hls2, hnone⟩)
        · cases hn
        · cases hls2
          rw [h] at hnone
          cases hnone
      · intro d
        constructor
        · intro hok
          rw [hval] at hok
          cases hok
          exact ⟨ls, rfl, h⟩
        · rintro ⟨ls2, hls2, hd⟩
          cases hls2
          rw [h] at hd
          cases hd
          exact hval
      · intro e he
        rw [hval] at he
        cases he

/-- Witness for C8: an absent source makes the whole batch fail with the
load error before any line is considered. -/
theorem claim8_witness :
    runBatch (fun _ => Option.none) Option.none [] = Except.error PyErr.ioError :=
  (claim8_loader (fun _ => Option.none) Option.none []).2.2 PyErr.ioError rfl

/-- Claim C9 (implicit in the code): the temperature decoder applies
general float parsing to the slice of characters 87–92 and divides by
10 — the slice may be shorter than 5 characters (lines of length 88–91)
and may contain signs, decimal points, exponents or surrounding
whitespace; the result is absent exactly when float parsing fails, and
a line of at most 87 characters has an empty slice and always fails. -/
theorem claim9_general_float_parsing :
    (∀ s : List Char, parse_temp s = (pyFloat (pySlice s 87 92)).map (fun v => v / 10))
  ∧ (∀ s : List Char, s.length ≤ 87 → parse_temp s = Option.none)
  ∧ (line88.length = 88 ∧ parse_temp line88 = some (1 / 2))
  ∧ parse_temp lineExp = some 15
  ∧ parse_temp lineWs = some (3 / 20)
  ∧ parse_temp lineBad = Option.none := by
  refine ⟨parse_temp_map, fun s h => parse_temp_short h, ⟨by decide, ?_⟩, ?_, ?_, ?_⟩
  · have h : pyFloat (pySlice line88 87 92) = some 5 := by decide
    rw [parse_temp_map, h]
    show some ((5 : ℚ) / 10) = some (1 / 2)
    norm_num
  · have h : pyFloat (pySlice lineExp 87 92) = some 150 := by decide
    rw [parse_temp_map, h]
    show some ((150 : ℚ) / 10) = some 15
    norm_num
  · have h : pyFloat (pySlice lineWs 87 92) = some (mkRat 15 10) := by decide
    rw [parse_temp_map, h]
    show some ((mkRat 15 10 : ℚ) / 10) = some (3 / 20)
    norm_num [Rat.mkRat_eq_div]
  · have h : pyFloat (pySlice lineBad 87 92) = Option.none := by decide
    rw [parse_temp_map, h]
    rfl

/-- Witness for C9: a line of length 87 has an absent temperature. -/
theorem claim9_witness : parse_temp line87 = Option.none :=
  claim9_general_float_parsing.2.1 line87 (by decide)

/-- Claim C10 (implicit in the code): the completeness predicate is
total over record dicts — it returns a boolean for every dict, its
result depends only on the four required reads, a key that is missing
reads as `None`, and a key stored with value `None` reads the same. -/
theorem claim10_filter_total :
    (∀ d : PyDict, filter_required d = true ∨ filter_required d = false)
  ∧ (∀ d1 d2 : PyDict,
      pyGet d1 kLat = pyGet d2 kLat → pyGet d1 kLon = pyGet d2 kLon →
      pyGet d1 kMeasurementTime = pyGet d2 kMeasurementTime →
      pyGet d1 kTemp = pyGet d2 kTemp →
      filter_required d1 = filter_required d2)
  ∧ (∀ (d : PyDict) (k : List Char), alookup d k = Option.none → pyGet d k = PyVal.none)
  ∧ (∀ (k : List Char) (rest : PyDict), pyGet ((k, PyVal.none) :: rest) k = PyVal.none) := by
  refine ⟨?_, ?_, ?_, ?_⟩
  · intro d
    cases filter_required d
    · exact Or.inr rfl
    · exact Or.inl rfl
  · intro d1 d2 h1 h2 h3 h4
    unfold filter_required
    rw [h1, h2, h3, h4]
  · intro d k h
    unfold pyGet
    rw [h]
  · intro k rest
    simp [pyGet, alookup]

/-- Witness for C10: a dict storing `None` under `lat` and a dict with
no `lat` key at all are treated identically. -/
theorem claim10_witness :
    filter_required [(kLat, PyVal.none)] = filter_required [] :=
  claim10_filter_total.2.1 [(kLat, PyVal.none)] [] (by decide) (by decide) (by decide)
    (by decide)
